import Mathlib

/-!
Shallow embedding of `run_tests.py`, the local test runner of the
Formatif F1 repository, together with proofs of the behavioural claims
about it.

The runner touches a small, fixed set of files.  We model the read-only
part of the world (key files, script files, `/proc/cpuinfo`, the Python
byte-compiler and the `i2cdetect` subprocess) as an `Env`, and the part
the runner mutates (the `.test_markers` directory and `.gitignore`) as a
state `St` threaded through the functions.  Python exceptions that may
escape are modelled with `Except`; console output is collected in a list
of `OutMsg` values.
-/

/-! ### Python string primitives, modelled on `List Char` -/

/-- Whitespace stripping from both ends, as Python `str.strip()`. -/
def stripChars (l : List Char) : List Char :=
  ((l.dropWhile Char.isWhitespace).reverse.dropWhile Char.isWhitespace).reverse

/-- Python `str.strip()`. -/
def pyStrip (s : String) : String := String.mk (stripChars s.data)

/-- Helper for `pySplitWs`: accumulate the current word (reversed). -/
def splitWsAux : List Char → List Char → List String
  | [], acc => if acc.isEmpty then [] else [String.mk acc.reverse]
  | c :: cs, acc =>
      if c.isWhitespace then
        if acc.isEmpty then splitWsAux cs []
        else String.mk acc.reverse :: splitWsAux cs []
      else splitWsAux cs (c :: acc)

/-- Python `str.split()` with no argument: split on whitespace runs,
no empty fields. -/
def pySplitWs (s : String) : List String := splitWsAux s.data []

/-- Helper for `pySplitlines`: accumulate the current line (reversed). -/
def splitlinesAux : List Char → List Char → List String
  | [], acc => if acc.isEmpty then [] else [String.mk acc.reverse]
  | c :: cs, acc =>
      if c = '\n' then String.mk acc.reverse :: splitlinesAux cs []
      else splitlinesAux cs (c :: acc)

/-- Python `str.splitlines()` (newline-separated, no trailing empty line). -/
def pySplitlines (s : String) : List String := splitlinesAux s.data []

/-- Boolean list prefix test. -/
def listIsPrefixOf : List Char → List Char → Bool
  | [], _ => true
  | _ :: _, [] => false
  | a :: as, b :: bs => a == b && listIsPrefixOf as bs

/-- Boolean contiguous-sublist test: does `hay` contain `needle`? -/
def listHasSub : List Char → List Char → Bool
  | [], needle => listIsPrefixOf needle []
  | h :: t, needle => listIsPrefixOf needle (h :: t) || listHasSub t needle

/-- Python `needle in hay` on strings. -/
def strContains (hay needle : String) : Bool := listHasSub hay.data needle.data

/-- Python `s.startswith(pre)`. -/
def strStartsWith (s pre : String) : Bool := listIsPrefixOf pre.data s.data

/-- Python-style suffix test, used to model the `*_verified.txt` and
`*_detected.txt` glob patterns. -/
def strEndsWith (s suf : String) : Bool :=
  listIsPrefixOf suf.data.reverse s.data.reverse

/-- Helper for `pyStem`: walk the reversed name and drop through the first
dot; `none` when there is no dot. -/
def dropExtRev : List Char → Option (List Char)
  | [] => none
  | c :: cs => if c = '.' then some cs else dropExtRev cs

/-- `pathlib.Path.stem`: the file name without its final extension
(names like `.txt` with only a leading dot have no extension). -/
def pyStem (n : String) : String :=
  match dropExtRev n.data.reverse with
  | some rest => if rest.isEmpty then n else String.mk rest.reverse
  | none => n

/-- `str.join`-style concatenation with a separator, as Python
`sep.join(lines)`. -/
def joinWith (sep : String) : List String → String
  | [] => ""
  | [l] => l
  | l :: ls => l ++ sep ++ joinWith sep ls

/-! ### The modelled world -/

/-- Exceptions that can escape the modelled Python code. -/
inductive PyExn where
  | indexError
  | fileNotFound
  deriving Repr, DecidableEq

/-- Console output events, tagged with the helper that printed them
(`print_header`, `print_success`, `print_error`, `print_warning`, bare
`print`). -/
inductive OutMsg where
  | header (s : String)
  | success (s : String)
  | error (s : String)
  | warning (s : String)
  | info (s : String)
  deriving Repr, DecidableEq

/-- The result of `compile(source, ..., 'exec')`: `none` when the source
compiles, `some` a syntax error with its line number otherwise. -/
structure SynErr where
  lineno : Nat
  msg : String
  deriving Repr, DecidableEq

/-- Outcome of the `subprocess.run(['sudo','i2cdetect','-y','1'], ...)`
call: normal completion with a return code and captured stdout, a missing
executable (`FileNotFoundError`), the 10 s timeout
(`subprocess.TimeoutExpired`), or any other exception. -/
inductive I2cOutcome where
  | completed (returncode : Int) (stdout : String)
  | toolMissing
  | timedOut
  | otherFailure (msg : String)
  deriving Repr, DecidableEq

/-- The read-only environment of one run: contents of the files the
runner reads (`none` = the file does not exist / cannot be read), the
Python compiler oracle and the `i2cdetect` outcome. -/
structure Env where
  id_ed25519_pub : Option String
  id_rsa_pub : Option String
  authorized_keys : Option String
  test_bmp280 : Option String
  test_neoslider : Option String
  cpuinfo : Option String
  pyCompile : String → Option SynErr
  i2c : I2cOutcome

/-- The `.test_markers` directory as an association list from file name
to file content. -/
abbrev Dir := List (String × String)

/-- `Path.write_text` inside an existing directory: overwrite the first
entry with this name, or append a new entry. -/
def dirWrite : Dir → String → String → Dir
  | [], n, c => [(n, c)]
  | (m, v) :: d, n, c =>
      if m = n then (m, c) :: d else (m, v) :: dirWrite d n c

/-- Read a file of the directory by name. -/
def dirLookup : Dir → String → Option String
  | [], _ => none
  | (m, v) :: d, n => if m = n then some v else dirLookup d n

/-- The mutable state of a run: the `.test_markers` directory (`none` =
not created yet) and the `.gitignore` content (`none` = absent). -/
structure St where
  markers : Option Dir
  gitignore : Option String
  deriving Repr, DecidableEq

/-- The file names of a directory. -/
def dirNames (d : Dir) : List String := d.map Prod.fst

/-- File names present in the marker directory (empty when absent). -/
def stNames (st : St) : List String := dirNames (st.markers.getD [])

/-- Content of a marker file (considering an absent directory empty). -/
def stLookup (st : St) (n : String) : Option String :=
  dirLookup (st.markers.getD []) n

/-! ### Marker texts -/

/-- Content written to `ssh_key_verified.txt`. -/
def sshMarkerText (now : String) : String := "SSH key verified: " ++ now ++ "\n"

/-- Content written to `bmp280_script_verified.txt`. -/
def bmpMarkerText (now : String) : String :=
  "BMP280 script verified: " ++ now ++ "\n"

/-- Content written to `neoslider_script_verified.txt`. -/
def neoMarkerText (now : String) : String :=
  "NeoSlider script verified: " ++ now ++ "\n"

/-- Content written to `hardware_detected.txt`. -/
def hwMarkerText (now out : String) : String :=
  "Hardware scan: " ++ now ++ "\n" ++ out ++ "\n"

/-- Content written to `all_tests_passed.txt`. -/
def allPassedText (now : String) : String :=
  "All tests passed: " ++ now ++ "\n"

/-! ### The check functions of `run_tests.py` -/

/-- The loop head of `check_ssh_key`: the first existing file among
`id_ed25519.pub` and `id_rsa.pub`, with its name. -/
def sshFirstKey (env : Env) : Option (String × String) :=
  match env.id_ed25519_pub with
  | some c => some ("id_ed25519.pub", c)
  | none =>
      match env.id_rsa_pub with
      | some c => some ("id_rsa.pub", c)
      | none => none

/-- `check_ssh_key()`: find a public key, compare its key material with
`authorized_keys` (note the unguarded `split()[1]` indexing), then create
the marker directory (`mkdir(exist_ok=True)`) and write the SSH marker. -/
def check_ssh_key (env : Env) (now : String) (st : St) :
    Except PyExn (Bool × St × List OutMsg) :=
  let hdr := OutMsg.header "VÉRIFICATION SSH"
  match sshFirstKey env with
  | none =>
      .ok (false, st,
        [hdr, OutMsg.error "Aucune clé SSH publique trouvée",
         OutMsg.info "\n📚 Pour générer une clé SSH:",
         OutMsg.info "   ssh-keygen -t ed25519 -C \"mon-raspberry-pi\"",
         OutMsg.info "   (Appuyez 3x sur Entrée pour les valeurs par défaut)"])
  | some (name, raw) =>
      let key_content := pyStrip raw
      let found := OutMsg.success ("Clé SSH publique trouvée: " ++ name)
      let preview := OutMsg.info ("   " ++ String.mk (key_content.data.take 40) ++ "...")
      let authRes : Except PyExn (List OutMsg) :=
        match env.authorized_keys with
        | some auth_content =>
            match pySplitWs key_content with
            | _ :: keyPart :: _ =>
                if strContains auth_content keyPart then
                  .ok [OutMsg.success "La clé est dans authorized_keys (connexion sans mot de passe)"]
                else
                  .ok [OutMsg.warning "authorized_keys existe mais ne contient pas cette clé"]
            | _ => .error PyExn.indexError
        | none =>
            .ok [OutMsg.warning "authorized_keys n\x27existe pas encore",
                 OutMsg.info "   Sur Windows PowerShell:",
                 OutMsg.info "   type $env:USERPROFILE\\.ssh\\id_ed25519.pub | ssh user@HOSTNAME.local \"mkdir -p ~/.ssh && cat >> ~/.ssh/authorized_keys\""]
      match authRes with
      | .error e => .error e
      | .ok authMsgs =>
          let d := dirWrite (st.markers.getD []) "ssh_key_verified.txt" (sshMarkerText now)
          .ok (true, { st with markers := some d },
            [hdr, found, preview] ++ authMsgs ++
              [OutMsg.success "Marqueur SSH créé: ssh_key_verified.txt"])

/-- `check_bmp280_script()`: existence, syntax (via the compile oracle),
required imports as substring search, UV dependency warning, then the
marker write — which, unlike the SSH check, does not create the marker
directory first and raises `FileNotFoundError` when it is absent. -/
def check_bmp280_script (env : Env) (now : String) (st : St) :
    Except PyExn (Bool × St × List OutMsg) :=
  let hdr := OutMsg.header "VÉRIFICATION TEST_BMP280.PY"
  match env.test_bmp280 with
  | none => .ok (false, st, [hdr, OutMsg.error "Fichier test_bmp280.py introuvable"])
  | some content =>
      let m0 := OutMsg.success "Fichier test_bmp280.py trouvé"
      match env.pyCompile content with
      | some e =>
          .ok (false, st,
            [hdr, m0,
             OutMsg.error ("Erreur de syntaxe ligne " ++ toString e.lineno ++ ": " ++ e.msg)])
      | none =>
          let m1 := OutMsg.success "Syntaxe Python valide"
          if !strContains content "board" then
            .ok (false, st, [hdr, m0, m1, OutMsg.error "Import manquant: board"])
          else if !strContains content "adafruit_bmp280" then
            .ok (false, st,
              [hdr, m0, m1, OutMsg.success "Import trouvé: board",
               OutMsg.error "Import manquant: adafruit_bmp280"])
          else
            let m2 := [OutMsg.success "Import trouvé: board",
                       OutMsg.success "Import trouvé: adafruit_bmp280"]
            let m3 :=
              if strContains content "dependencies" &&
                  strContains content "adafruit-circuitpython-bmp280" then
                [OutMsg.success "Dépendances UV configurées"]
              else
                [OutMsg.warning "Dépendances UV non trouvées (décommentées dans le script?)"]
            match st.markers with
            | none => .error PyExn.fileNotFound
            | some d =>
                let st2 := { st with markers := some (dirWrite d "bmp280_script_verified.txt" (bmpMarkerText now)) }
                .ok (true, st2,
                  [hdr, m0, m1] ++ m2 ++ m3 ++
                    [OutMsg.success "Marqueur BMP280 créé: bmp280_script_verified.txt"])

/-- `check_neoslider_script()`: like the BMP280 check but the script is
optional (missing file is a warning and a pass), and the marker write
likewise assumes the marker directory exists. -/
def check_neoslider_script (env : Env) (now : String) (st : St) :
    Except PyExn (Bool × St × List OutMsg) :=
  let hdr := OutMsg.header "VÉRIFICATION TEST_NEOSLIDER.PY"
  match env.test_neoslider with
  | none => .ok (true, st, [hdr, OutMsg.warning "test_neoslider.py introuvable (optionnel)"])
  | some content =>
      let m0 := OutMsg.success "Fichier test_neoslider.py trouvé"
      match env.pyCompile content with
      | some e =>
          .ok (false, st,
            [hdr, m0,
             OutMsg.error ("Erreur de syntaxe ligne " ++ toString e.lineno ++ ": " ++ e.msg)])
      | none =>
          let m1 := OutMsg.success "Syntaxe Python valide"
          if !strContains content "board" then
            .ok (false, st, [hdr, m0, m1, OutMsg.error "Import manquant: board"])
          else if !strContains content "adafruit_seesaw" then
            .ok (false, st,
              [hdr, m0, m1, OutMsg.success "Import trouvé: board",
               OutMsg.error "Import manquant: adafruit_seesaw"])
          else
            match st.markers with
            | none => .error PyExn.fileNotFound
            | some d =>
                let st2 := { st with markers := some (dirWrite d "neoslider_script_verified.txt" (neoMarkerText now)) }
                .ok (true, st2,
                  [hdr, m0, m1, OutMsg.success "Import trouvé: board",
                   OutMsg.success "Import trouvé: adafruit_seesaw",
                   OutMsg.success "Marqueur NeoSlider créé: neoslider_script_verified.txt"])

/-- The Raspberry-Pi detection of `run_hardware_tests`: substring search
in `/proc/cpuinfo`, with any read failure caught by the bare `except`
and treated as "not a Pi". -/
def isRpi (env : Env) : Bool :=
  match env.cpuinfo with
  | none => false
  | some c => strContains c "Raspberry Pi" || strContains c "Broadcom"

/-- `run_hardware_tests()`: skip (and pass) off the Pi; otherwise run
`i2cdetect` under a try/except that downgrades a missing tool, the
timeout and any other exception to warnings.  With return code 0 the two
device addresses are substring-matched and the hardware marker is
written; that write sits inside the same try, so a missing marker
directory is caught by the `except FileNotFoundError` arm.  Only a
non-zero return code makes the check fail. -/
def run_hardware_tests (env : Env) (now : String) (st : St) :
    Except PyExn (Bool × St × List OutMsg) :=
  let hdr := OutMsg.header "TESTS MATÉRIEL (Raspberry Pi)"
  if !isRpi env then
    .ok (true, st,
      [hdr, OutMsg.warning "Pas sur Raspberry Pi - tests matériels skipés",
       OutMsg.info "   Exécutez ce script sur le Raspberry Pi pour les tests matériels"])
  else
    let m0 := OutMsg.success "Raspberry Pi détecté"
    match env.i2c with
    | .completed rc out =>
        if rc = 0 then
          let mb :=
            if strContains out "77" then
              OutMsg.success "BMP280 détecté à l\x27adresse 0x77"
            else OutMsg.warning "BMP280 non détecté à 0x77 - vérifiez le câblage"
          let mn :=
            if strContains out "30" then
              OutMsg.success "NeoSlider détecté à l\x27adresse 0x30"
            else OutMsg.warning "NeoSlider non détecté à 0x30 (optionnel)"
          match st.markers with
          | none =>
              .ok (true, st,
                [hdr, m0, mb, mn,
                 OutMsg.warning "i2cdetect non trouvé - installez: sudo apt install i2c-tools"])
          | some d =>
              let st2 := { st with markers := some (dirWrite d "hardware_detected.txt" (hwMarkerText now out)) }
              .ok (true, st2,
                [hdr, m0, mb, mn,
                 OutMsg.success "Marqueur matériel créé: hardware_detected.txt"])
        else
          .ok (false, st, [hdr, m0, OutMsg.error "i2cdetect a échoué"])
    | .toolMissing =>
        .ok (true, st,
          [hdr, m0, OutMsg.warning "i2cdetect non trouvé - installez: sudo apt install i2c-tools"])
    | .timedOut =>
        .ok (true, st, [hdr, m0, OutMsg.warning "i2cdetect timeout - vérifiez I2C"])
    | .otherFailure m =>
        .ok (true, st, [hdr, m0, OutMsg.warning ("Erreur i2cdetect: " ++ m)])

/-! ### `.gitignore` update -/

/-- The condition of `update_gitignore` on one line: it mentions
`.test_markers` and its stripped form is not a comment. -/
def gitignoreMatch (line : String) : Bool :=
  strContains line ".test_markers" && !strStartsWith (pyStrip line) "#"

/-- The explanatory comment line inserted by `update_gitignore`. -/
def gitignoreComment : String :=
  "# .test_markers/ is now allowed (created by run_tests.py)"

/-- The filtering loop of `update_gitignore`: returns the rebuilt line
list together with the `modified` flag, threading the flag exactly as
the Python loop does. -/
def gitignoreProcess : List String → Bool → List String × Bool
  | [], modified => ([], modified)
  | l :: ls, modified =>
      if gitignoreMatch l then
        let r := gitignoreProcess ls true
        if modified then r else (gitignoreComment :: r.1, true)
      else
        let r := gitignoreProcess ls modified
        (l :: r.1, r.2)

/-- `update_gitignore()`: a no-op when the marker directory or the
`.gitignore` file is absent, otherwise rewrite the file (joined with
newlines, plus a trailing newline) only when some line was filtered. -/
def update_gitignore (st : St) : St × List OutMsg :=
  match st.markers with
  | none => (st, [])
  | some _ =>
      match st.gitignore with
      | none => (st, [])
      | some g =>
          let lines := pySplitlines g
          let r := gitignoreProcess lines false
          if r.2 then
            ({ st with gitignore := some (joinWith "\n" r.1 ++ "\n") },
             [OutMsg.success ".gitignore mis à jour - les marqueurs peuvent être commités"])
          else (st, [])

/-! ### Test summary -/

/-- File names matched by the two globs `*_verified.txt` and
`*_detected.txt` of `create_test_summary`. -/
def markerGlobMatch (n : String) : Bool :=
  strEndsWith n "_verified.txt" || strEndsWith n "_detected.txt"

/-- Insertion step of the name-ordered sort modelling Python
`sorted(markers)`. -/
def insertByName (p : String × String) : List (String × String) → List (String × String)
  | [] => [p]
  | q :: qs => if q.1 < p.1 then q :: insertByName p qs else p :: q :: qs

/-- Sort directory entries by file name (the paths Python compares all
live in the same directory, so path order is name order). -/
def sortByName : List (String × String) → List (String × String)
  | [] => []
  | p :: ps => insertByName p (sortByName ps)

/-- The sorted list of glob matches used by `create_test_summary`. -/
def summaryMarkers (d : Dir) : List (String × String) :=
  sortByName (d.filter (fun p => markerGlobMatch p.1))

/-- One `  - stem: content` line of the summary. -/
def summaryEntry (p : String × String) : String :=
  "  - " ++ pyStem p.1 ++ ": " ++ pyStrip p.2 ++ "\n"

/-- The full text written to `test_summary.txt`. -/
def summaryText (now : String) (d : Dir) : String :=
  let ms := summaryMarkers d
  "Test Summary for Formatif F1\nGenerated: " ++ now ++ "\nTests Run: " ++
    toString ms.length ++ "\n\nMarkers:\n" ++ String.join (ms.map summaryEntry)

/-- `create_test_summary()`: glob the marker directory (an absent
directory globs empty) and write the summary file — a write that raises
`FileNotFoundError` when the directory is absent. -/
def create_test_summary (now : String) (st : St) : Except PyExn (St × List OutMsg) :=
  match st.markers with
  | none => .error PyExn.fileNotFound
  | some d =>
      let st2 := { st with markers := some (dirWrite d "test_summary.txt" (summaryText now d)) }
      .ok (st2, [OutMsg.success "Résumé des tests créé: test_summary.txt"])

/-! ### The entry point -/

/-- The per-check OK/ÉCHEC lines of the final report. -/
def resultMsgs (r1 r2 r3 r4 : Bool) : List OutMsg :=
  [OutMsg.header "RÉSULTAT FINAL",
   if r1 then OutMsg.success "SSH: OK" else OutMsg.error "SSH: ÉCHEC",
   if r2 then OutMsg.success "BMP280: OK" else OutMsg.error "BMP280: ÉCHEC",
   if r3 then OutMsg.success "NeoSlider: OK" else OutMsg.error "NeoSlider: ÉCHEC",
   if r4 then OutMsg.success "Hardware: OK" else OutMsg.error "Hardware: ÉCHEC"]

/-- `main()`: run the four checks in order, create the summary, and on
overall success update `.gitignore` and write the final marker; returns
the value passed to `sys.exit`.  Any uncaught exception aborts the
whole computation. -/
def mainRun (env : Env) (now : String) (st : St) :
    Except PyExn (Nat × St × List OutMsg) :=
  match check_ssh_key env now st with
  | .error e => .error e
  | .ok (r1, st1, o1) =>
      match check_bmp280_script env now st1 with
      | .error e => .error e
      | .ok (r2, st2, o2) =>
          match check_neoslider_script env now st2 with
          | .error e => .error e
          | .ok (r3, st3, o3) =>
              match run_hardware_tests env now st3 with
              | .error e => .error e
              | .ok (r4, st4, o4) =>
                  match create_test_summary now st4 with
                  | .error e => .error e
                  | .ok (st5, o5) =>
                      let report := resultMsgs r1 r2 r3 r4
                      if r1 && r2 && r3 && r4 then
                        let gi := update_gitignore st5
                        match gi.1.markers with
                        | none => .error PyExn.fileNotFound
                        | some d =>
                            let st6 := { gi.1 with markers := some (dirWrite d "all_tests_passed.txt" (allPassedText now)) }
                            .ok (0, st6,
                              o1 ++ o2 ++ o3 ++ o4 ++ o5 ++ report ++
                                [OutMsg.info "🎉 TOUS LES TESTS SONT PASSÉS!"] ++ gi.2 ++
                                [OutMsg.info "\n📤 Vous pouvez maintenant pousser vos modifications:",
                                 OutMsg.info "   git add .",
                                 OutMsg.info "   git commit -m \"feat: tests locaux passés\"",
                                 OutMsg.info "   git push"])
                      else
                        .ok (1, st5,
                          o1 ++ o2 ++ o3 ++ o4 ++ o5 ++ report ++
                            [OutMsg.info "⚠️  CERTAINS TESTS ONT ÉCHOUÉ",
                             OutMsg.info "\nCorrigez les erreurs ci-dessus et relancez:",
                             OutMsg.info "   python3 run_tests.py"])

/-- The process exit code of `python3 run_tests.py`: the value `main`
returns to `sys.exit`, and 1 when an uncaught exception aborts the
interpreter. -/
def processExitCode (env : Env) (now : String) (st : St) : Nat :=
  match mainRun env now st with
  | .ok (code, _, _) => code
  | .error _ => 1

/-- Whether the four checks, run in order from `st`, all return success;
`none` when one of them raises. -/
def checksAllPass (env : Env) (now : String) (st : St) : Option Bool :=
  match check_ssh_key env now st with
  | .error _ => none
  | .ok (r1, st1, _) =>
      match check_bmp280_script env now st1 with
      | .error _ => none
      | .ok (r2, st2, _) =>
          match check_neoslider_script env now st2 with
          | .error _ => none
          | .ok (r3, st3, _) =>
              match run_hardware_tests env now st3 with
              | .error _ => none
              | .ok (r4, _, _) => some (r1 && r2 && r3 && r4)

/-- The pass/fail verdict and resulting state of a check, discarding its
console output. -/
def checkOutcome (r : Except PyExn (Bool × St × List OutMsg)) : Except PyExn (Bool × St) :=
  match r with
  | .error e => .error e
  | .ok x => .ok (x.1, x.2.1)

/-- Does `run_hardware_tests` reach the hardware-marker write?  Exactly
when the machine is detected as a Pi and `i2cdetect` completes with
return code 0. -/
def hwWritesB (env : Env) : Bool :=
  isRpi env &&
    (match env.i2c with
     | .completed rc _ => rc == 0
     | _ => false)

/-- Specification-side description of the rewrite, written from the
spec: when some line matches (mentions `.test_markers` and is not a
comment), keep the prefix of non-matching lines, put one explanatory
comment at the position of the first matching line, and keep every other
non-matching line in order; with no matching line, leave the lines
unchanged. -/
def gitignoreSpecLines (lines : List String) : List String :=
  if lines.any gitignoreMatch then
    lines.takeWhile (fun l => !gitignoreMatch l) ++
      gitignoreComment ::
        ((lines.dropWhile (fun l => !gitignoreMatch l)).filter (fun l => !gitignoreMatch l))
  else lines

/-- Names of the marker files a fully successful run writes: the SSH and
BMP280 markers always, the NeoSlider marker when the optional script
exists, the hardware marker when the scan ran and succeeded, then the
summary and the final success marker. -/
def mainMarkerNames (env : Env) : List String :=
  ["ssh_key_verified.txt", "bmp280_script_verified.txt"] ++
    (if env.test_neoslider.isSome then ["neoslider_script_verified.txt"] else []) ++
    (if hwWritesB env then ["hardware_detected.txt"] else []) ++
    ["test_summary.txt", "all_tests_passed.txt"]

/-! ### Concrete worlds used by the closed evaluations -/

/-- A world whose only SSH public key consists of a single
whitespace-free token, with an `authorized_keys` file present: the
`key_content.split()[1]` indexing in `check_ssh_key` then raises. -/
def envShortKey : Env :=
  { id_ed25519_pub := some "ssh-ed25519AAAAC3Nza"
    id_rsa_pub := none
    authorized_keys := some "ssh-ed25519 AAAA user@pc"
    test_bmp280 := some "import board\nimport adafruit_bmp280"
    test_neoslider := none
    cpuinfo := none
    pyCompile := fun _ => none
    i2c := I2cOutcome.toolMissing }

/-- A world with no SSH key at all (so the SSH check fails before ever
creating `.test_markers`) but a valid BMP280 script: the marker write of
`check_bmp280_script` then raises `FileNotFoundError`. -/
def envNoKeyValidBmp : Env :=
  { envShortKey with id_ed25519_pub := none, authorized_keys := none }

/-- The initial state of a fresh clone: no marker directory, no
`.gitignore`. -/
def stStart : St := { markers := none, gitignore := none }

/-- A world in which every check passes: a well-formed key present in
`authorized_keys`, a valid BMP280 script, no optional NeoSlider script,
and a machine that is not a Raspberry Pi. -/
def envRerun : Env :=
  { id_ed25519_pub := some "ssh-ed25519 AAAA pi@lab\n"
    id_rsa_pub := none
    authorized_keys := some "ssh-ed25519 AAAA pi@lab"
    test_bmp280 := some "import board\nimport adafruit_bmp280"
    test_neoslider := none
    cpuinfo := none
    pyCompile := fun _ => none
    i2c := I2cOutcome.toolMissing }

/-- The state a run ends in (falling back to the fresh state when the
run raised). -/
def stAfterRun (r : Except PyExn (Nat × St × List OutMsg)) : St :=
  match r with
  | .ok x => x.2.1
  | .error _ => stStart

/-- The output a run printed (empty when the run raised). -/
def outAfterRun (r : Except PyExn (Nat × St × List OutMsg)) : List OutMsg :=
  match r with
  | .ok x => x.2.2
  | .error _ => []

/-- State after one successful run in `envRerun`. -/
def stFirst : St := stAfterRun (mainRun envRerun "T1" stStart)

/-- Output of that first run. -/
def outFirst : List OutMsg := outAfterRun (mainRun envRerun "T1" stStart)

/-- State after re-running in the same world. -/
def stSecond : St := stAfterRun (mainRun envRerun "T2" stFirst)

/-- Output of the second run. -/
def outSecond : List OutMsg := outAfterRun (mainRun envRerun "T2" stFirst)

/-- A world whose two scripts fail to compile at line 1. -/
def envSyntaxErr : Env :=
  { envRerun with
      test_bmp280 := some "def f(:"
      test_neoslider := some "def g(:"
      pyCompile := fun _ => some { lineno := 1, msg := "invalid syntax" } }

/-- A world whose scripts compile but miss a required import token. -/
def envNoImport : Env :=
  { envRerun with
      test_bmp280 := some "import adafruit_bmp280"
      test_neoslider := some "import board" }

/-- A state with an existing (empty) marker directory and a `.gitignore`
whose first line excludes the marker directory. -/
def stGit : St := { markers := some [], gitignore := some ".test_markers/\nuv.lock" }

/-- A marker directory holding one marker file and one unrelated file. -/
def dSum : Dir := [("ssh_key_verified.txt", "SSH key verified: T0\n"), ("notes.txt", "misc")]

/-- A state holding `dSum`. -/
def stSum : St := { markers := some dSum, gitignore := none }

/-- A Raspberry Pi whose I2C scan times out. -/
def envI2cTimeout : Env :=
  { envRerun with cpuinfo := some "Model : Raspberry Pi 4", i2c := I2cOutcome.timedOut }

/-- A machine that is not a Raspberry Pi. -/
def envNonRpi : Env := { envRerun with cpuinfo := some "GenuineIntel" }

/-! ### Basic lemmas about the marker directory -/

theorem mem_dirNames_dirWrite (d : Dir) (n c m : String) :
    m ∈ dirNames (dirWrite d n c) ↔ m ∈ dirNames d ∨ m = n := by
  induction d with
  | nil => simp [dirWrite, dirNames]
  | cons p d ih =>
      obtain ⟨k, v⟩ := p
      by_cases hk : k = n
      · subst hk
        simp [dirWrite, dirNames]
        tauto
      · simp only [dirWrite, if_neg hk, dirNames, List.map_cons, List.mem_cons] at ih ⊢
        rw [ih]
        tauto

theorem dirLookup_dirWrite_self (d : Dir) (n c : String) :
    dirLookup (dirWrite d n c) n = some c := by
  induction d with
  | nil => simp [dirWrite, dirLookup]
  | cons p d ih =>
      obtain ⟨k, v⟩ := p
      by_cases hk : k = n
      · subst hk; simp [dirWrite, dirLookup]
      · simp [dirWrite, dirLookup, hk, ih]

theorem dirLookup_dirWrite_ne (d : Dir) (n c m : String) (h : m ≠ n) :
    dirLookup (dirWrite d n c) m = dirLookup d m := by
  induction d with
  | nil =>
      simp only [dirWrite, dirLookup]
      rw [if_neg (Ne.symm h)]
  | cons p d ih =>
      obtain ⟨k, v⟩ := p
      by_cases hk : k = n
      · subst hk
        simp [dirWrite, dirLookup, Ne.symm h]
      · simp [dirWrite, dirLookup, hk, ih]

/-! ### Effect of each check on the run state -/

/-- `check_ssh_key` either fails leaving the state untouched, or succeeds
having created the marker directory and written the SSH marker. -/
theorem check_ssh_key_effect (env : Env) (now : String) (st : St) (r : Bool)
    (st' : St) (o : List OutMsg)
    (h : check_ssh_key env now st = .ok (r, st', o)) :
    (r = false ∧ st' = st) ∨
      (r = true ∧
        st' = { st with markers := some (dirWrite (st.markers.getD []) "ssh_key_verified.txt" (sshMarkerText now)) }) := by
  unfold check_ssh_key at h
  rcases hk : sshFirstKey env with _ | ⟨name, raw⟩ <;> rw [hk] at h
  · simp only [Except.ok.injEq, Prod.mk.injEq] at h
    exact Or.inl ⟨h.1.symm, h.2.1.symm⟩
  · simp only at h
    split at h
    · exact absurd h (by simp)
    · simp only [Except.ok.injEq, Prod.mk.injEq] at h
      exact Or.inr ⟨h.1.symm, h.2.1.symm⟩

/-- `check_bmp280_script` either fails leaving the state untouched, or
succeeds having written the BMP280 marker into the existing directory. -/
theorem check_bmp280_script_effect (env : Env) (now : String) (st : St) (r : Bool)
    (st' : St) (o : List OutMsg)
    (h : check_bmp280_script env now st = .ok (r, st', o)) :
    (r = false ∧ st' = st) ∨
      (r = true ∧ ∃ d, st.markers = some d ∧
        st' = { st with markers := some (dirWrite d "bmp280_script_verified.txt" (bmpMarkerText now)) }) := by
  unfold check_bmp280_script at h
  split at h
  all_goals try split at h
  all_goals try split at h
  all_goals try split at h
  all_goals try split at h
  all_goals try split at h
  all_goals simp only [Except.ok.injEq, Prod.mk.injEq, reduceCtorEq] at h
  · exact Or.inl ⟨h.1.symm, h.2.1.symm⟩
  · exact Or.inl ⟨h.1.symm, h.2.1.symm⟩
  · exact Or.inl ⟨h.1.symm, h.2.1.symm⟩
  · exact Or.inl ⟨h.1.symm, h.2.1.symm⟩
  · exact Or.inr ⟨h.1.symm, _, by assumption, h.2.1.symm⟩
  · exact Or.inr ⟨h.1.symm, _, by assumption, h.2.1.symm⟩

/-- Effect of `check_neoslider_script`: an untouched state (failure, or
the optional script being absent), or a success that wrote the NeoSlider
marker into the existing directory. -/
theorem check_neoslider_script_effect (env : Env) (now : String) (st : St) (r : Bool)
    (st' : St) (o : List OutMsg)
    (h : check_neoslider_script env now st = .ok (r, st', o)) :
    (st' = st ∧ (r = false ∨ env.test_neoslider = none)) ∨
      (r = true ∧ env.test_neoslider.isSome ∧ ∃ d, st.markers = some d ∧
        st' = { st with markers := some (dirWrite d "neoslider_script_verified.txt" (neoMarkerText now)) }) := by
  unfold check_neoslider_script at h
  split at h
  all_goals try split at h
  all_goals try split at h
  all_goals try split at h
  all_goals try split at h
  all_goals simp only [Except.ok.injEq, Prod.mk.injEq, reduceCtorEq] at h
  · exact Or.inl ⟨h.2.1.symm, Or.inr (by assumption)⟩
  · exact Or.inl ⟨h.2.1.symm, Or.inl h.1.symm⟩
  · exact Or.inl ⟨h.2.1.symm, Or.inl h.1.symm⟩
  · exact Or.inl ⟨h.2.1.symm, Or.inl h.1.symm⟩
  · exact Or.inr ⟨h.1.symm, by simp_all, _, by assumption, h.2.1.symm⟩

/-- Effect of `run_hardware_tests` when the marker directory exists:
either the state is untouched (and no marker write was reachable), or
the hardware marker was written with the scan output. -/
theorem run_hardware_tests_effect (env : Env) (now : String) (st : St) (r : Bool)
    (st' : St) (o : List OutMsg) (d : Dir)
    (h : run_hardware_tests env now st = .ok (r, st', o))
    (hm : st.markers = some d) :
    (st' = st ∧ hwWritesB env = false) ∨
      (r = true ∧ hwWritesB env = true ∧
        ∃ out, st' = { st with markers := some (dirWrite d "hardware_detected.txt" (hwMarkerText now out)) }) := by
  unfold run_hardware_tests at h
  split at h
  · rename_i hrpi
    simp only [Except.ok.injEq, Prod.mk.injEq] at h
    refine Or.inl ⟨h.2.1.symm, ?_⟩
    simp only [Bool.not_eq_true'] at hrpi
    simp [hwWritesB, hrpi]
  · rename_i hrpi
    simp only [Bool.not_eq_true, Bool.not_eq_false'] at hrpi
    rcases hi : env.i2c with ⟨rc, out⟩ | _ | _ | _ <;> simp only [hi] at h
    · by_cases hrc : rc = 0
      · rw [if_pos hrc, hm] at h
        simp only [Except.ok.injEq, Prod.mk.injEq] at h
        subst hrc
        exact Or.inr ⟨h.1.symm, by simp [hwWritesB, hi, hrpi], out, h.2.1.symm⟩
      · rw [if_neg hrc] at h
        simp only [Except.ok.injEq, Prod.mk.injEq] at h
        refine Or.inl ⟨h.2.1.symm, ?_⟩
        simp [hwWritesB, hi, hrpi, hrc]
    · simp only [Except.ok.injEq, Prod.mk.injEq] at h
      exact Or.inl ⟨h.2.1.symm, by simp [hwWritesB, hi, hrpi]⟩
    · simp only [Except.ok.injEq, Prod.mk.injEq] at h
      exact Or.inl ⟨h.2.1.symm, by simp [hwWritesB, hi, hrpi]⟩
    · simp only [Except.ok.injEq, Prod.mk.injEq] at h
      exact Or.inl ⟨h.2.1.symm, by simp [hwWritesB, hi, hrpi]⟩

/-- `create_test_summary` on an existing marker directory: deterministic
success, writing the summary file. -/
theorem create_test_summary_of_some (now : String) (st : St) (d : Dir)
    (hm : st.markers = some d) :
    create_test_summary now st =
      .ok ({ st with markers := some (dirWrite d "test_summary.txt" (summaryText now d)) },
        [OutMsg.success "Résumé des tests créé: test_summary.txt"]) := by
  unfold create_test_summary
  rw [hm]

/-- A successful `create_test_summary` leaves the marker directory
present (it only adds the summary file). -/
theorem create_test_summary_effect (now : String) (st st' : St) (o : List OutMsg)
    (h : create_test_summary now st = .ok (st', o)) :
    ∃ d, st.markers = some d ∧
      st' = { st with markers := some (dirWrite d "test_summary.txt" (summaryText now d)) } := by
  unfold create_test_summary at h
  split at h
  · exact absurd h (by simp)
  · next d hd =>
      simp only [Except.ok.injEq, Prod.mk.injEq] at h
      exact ⟨d, hd, h.1.symm⟩

/-- `update_gitignore` never touches the marker directory. -/
theorem update_gitignore_markers (st : St) :
    (update_gitignore st).1.markers = st.markers := by
  unfold update_gitignore
  split
  · rfl
  · split
    · rfl
    · rename_i g hg
      by_cases hr : (gitignoreProcess (pySplitlines g) false).2 = true
      · simp [hr]
      · simp [hr]

/-- A successful SSH check leaves the marker directory created. -/
theorem check_ssh_key_markers_isSome (env : Env) (now : String) (st : St)
    (r : Bool) (st' : St) (o : List OutMsg)
    (h : check_ssh_key env now st = .ok (r, st', o)) (hr : r = true) :
    st'.markers.isSome := by
  rcases check_ssh_key_effect env now st r st' o h with ⟨hf, _⟩ | ⟨_, hs⟩
  · simp [hf] at hr
  · rw [hs]
    rfl

/-- The BMP280 check never deletes the marker directory. -/
theorem check_bmp280_script_markers_mono (env : Env) (now : String) (st : St)
    (r : Bool) (st' : St) (o : List OutMsg)
    (h : check_bmp280_script env now st = .ok (r, st', o))
    (hm : st.markers.isSome) : st'.markers.isSome := by
  rcases check_bmp280_script_effect env now st r st' o h with ⟨_, hs⟩ | ⟨_, d, _, hs⟩ <;>
    rw [hs]
  · exact hm
  · rfl

/-- The NeoSlider check never deletes the marker directory. -/
theorem check_neoslider_script_markers_mono (env : Env) (now : String) (st : St)
    (r : Bool) (st' : St) (o : List OutMsg)
    (h : check_neoslider_script env now st = .ok (r, st', o))
    (hm : st.markers.isSome) : st'.markers.isSome := by
  rcases check_neoslider_script_effect env now st r st' o h with ⟨hs, _⟩ | ⟨_, _, d, _, hs⟩ <;>
    rw [hs]
  · exact hm
  · rfl

/-- The hardware check never deletes the marker directory. -/
theorem run_hardware_tests_markers_mono (env : Env) (now : String) (st : St)
    (r : Bool) (st' : St) (o : List OutMsg)
    (h : run_hardware_tests env now st = .ok (r, st', o))
    (hm : st.markers.isSome) : st'.markers.isSome := by
  obtain ⟨d, hd⟩ := Option.isSome_iff_exists.mp hm
  rcases run_hardware_tests_effect env now st r st' o d h hd with ⟨hs, _⟩ | ⟨_, _, out, hs⟩ <;>
    rw [hs]
  · exact hm
  · rfl

/-- Creating the summary keeps the marker directory present. -/
theorem create_test_summary_markers_isSome (now : String) (st st' : St)
    (o : List OutMsg) (h : create_test_summary now st = .ok (st', o)) :
    st'.markers.isSome := by
  obtain ⟨d, _, hs⟩ := create_test_summary_effect now st st' o h
  rw [hs]
  rfl

/-- Claim C1: the process exit code of the no-argument entry point is 0
exactly when the four checks (SSH, BMP280 script, NeoSlider script,
hardware) all return success, and it is 1 in every other run (a check
returning failure, or an uncaught exception aborting the interpreter). -/
theorem exitCode_zero_iff_all_checks_pass (env : Env) (now : String) (st : St) :
    (processExitCode env now st = 0 ↔ checksAllPass env now st = some true) ∧
      (processExitCode env now st = 0 ∨ processExitCode env now st = 1) := by
  unfold processExitCode checksAllPass mainRun
  rcases h1 : check_ssh_key env now st with e | ⟨r1, st1, o1⟩
  · simp [h1]
  · rcases h2 : check_bmp280_script env now st1 with e | ⟨r2, st2, o2⟩
    · simp [h1, h2]
    · rcases h3 : check_neoslider_script env now st2 with e | ⟨r3, st3, o3⟩
      · simp [h1, h2, h3]
      · rcases h4 : run_hardware_tests env now st3 with e | ⟨r4, st4, o4⟩
        · simp [h1, h2, h3, h4]
        · rcases h5 : create_test_summary now st4 with e | ⟨st5, o5⟩
          · simp only [h1, h2, h3, h4, h5]
            constructor
            · simp only [reduceCtorEq, false_iff, Option.some.injEq]
              intro hall
              simp only [Bool.and_eq_true] at hall
              obtain ⟨⟨⟨hr1, hr2⟩, hr3⟩, hr4⟩ := hall
              have m1 := check_ssh_key_markers_isSome env now st r1 st1 o1 h1 hr1
              have m2 := check_bmp280_script_markers_mono env now st1 r2 st2 o2 h2 m1
              have m3 := check_neoslider_script_markers_mono env now st2 r3 st3 o3 h3 m2
              have m4 := run_hardware_tests_markers_mono env now st3 r4 st4 o4 h4 m3
              obtain ⟨d, hd⟩ := Option.isSome_iff_exists.mp m4
              rw [create_test_summary_of_some now st4 d hd] at h5
              exact Except.noConfusion h5
            · simp
          · cases hall : (r1 && r2 && r3 && r4)
            · simp [h1, h2, h3, h4, h5, hall]
            · have m5 : st5.markers.isSome :=
                create_test_summary_markers_isSome now st4 st5 o5 h5
              have m6 : (update_gitignore st5).1.markers = st5.markers :=
                update_gitignore_markers st5
              obtain ⟨d6, hd6⟩ := Option.isSome_iff_exists.mp m5
              rw [hd6] at m6
              simp [h1, h2, h3, h4, h5, hall, m6]

/-! ### Claims about single checks -/

/-- Claim C4: when neither `id_ed25519.pub` nor `id_rsa.pub` exists, the
SSH check reports failure and leaves the run state untouched, so no
marker file is written. -/
theorem ssh_no_keys_fails_without_marker (env : Env) (now : String) (st : St)
    (h1 : env.id_ed25519_pub = none) (h2 : env.id_rsa_pub = none) :
    check_ssh_key env now st =
      .ok (false, st,
        [OutMsg.header "VÉRIFICATION SSH",
         OutMsg.error "Aucune clé SSH publique trouvée",
         OutMsg.info "\n📚 Pour générer une clé SSH:",
         OutMsg.info "   ssh-keygen -t ed25519 -C \"mon-raspberry-pi\"",
         OutMsg.info "   (Appuyez 3x sur Entrée pour les valeurs par défaut)"]) := by
  simp [check_ssh_key, sshFirstKey, h1, h2]

/-- Claim C5: a script whose content fails to compile makes the
corresponding check return failure, printing the line number carried by
the syntax error, and leaves the state untouched. -/
theorem syntax_error_fails_with_lineno (env : Env) (now : String) (st : St) :
    (∀ content e, env.test_bmp280 = some content → env.pyCompile content = some e →
       check_bmp280_script env now st =
         .ok (false, st,
           [OutMsg.header "VÉRIFICATION TEST_BMP280.PY",
            OutMsg.success "Fichier test_bmp280.py trouvé",
            OutMsg.error ("Erreur de syntaxe ligne " ++ toString e.lineno ++ ": " ++ e.msg)])) ∧
    (∀ content e, env.test_neoslider = some content → env.pyCompile content = some e →
       check_neoslider_script env now st =
         .ok (false, st,
           [OutMsg.header "VÉRIFICATION TEST_NEOSLIDER.PY",
            OutMsg.success "Fichier test_neoslider.py trouvé",
            OutMsg.error ("Erreur de syntaxe ligne " ++ toString e.lineno ++ ": " ++ e.msg)])) := by
  constructor <;> intro content e hc he
  · simp [check_bmp280_script, hc, he]
  · simp [check_neoslider_script, hc, he]

/-- Claim C6: an existing, syntactically valid script missing one of its
required import tokens makes the corresponding check return failure with
the state untouched. -/
theorem missing_import_fails (env : Env) (now : String) (st : St) :
    (∀ content, env.test_bmp280 = some content → env.pyCompile content = none →
       (strContains content "board" = false ∨ strContains content "adafruit_bmp280" = false) →
       checkOutcome (check_bmp280_script env now st) = .ok (false, st)) ∧
    (∀ content, env.test_neoslider = some content → env.pyCompile content = none →
       (strContains content "board" = false ∨ strContains content "adafruit_seesaw" = false) →
       checkOutcome (check_neoslider_script env now st) = .ok (false, st)) := by
  constructor <;> intro content hc he hmiss
  · rcases hmiss with hb | ha
    · simp [checkOutcome, check_bmp280_script, hc, he, hb]
    · by_cases hb : strContains content "board"
      · simp [checkOutcome, check_bmp280_script, hc, he, hb, ha]
      · rw [Bool.not_eq_true] at hb
        simp [checkOutcome, check_bmp280_script, hc, he, hb]
  · rcases hmiss with hb | ha
    · simp [checkOutcome, check_neoslider_script, hc, he, hb]
    · by_cases hb : strContains content "board"
      · simp [checkOutcome, check_neoslider_script, hc, he, hb, ha]
      · rw [Bool.not_eq_true] at hb
        simp [checkOutcome, check_neoslider_script, hc, he, hb]

/-- Claim C9: when the machine is detected as a Raspberry Pi and the
I2C scan hits its timeout, `run_hardware_tests` prints a warning, writes
nothing, and still returns success. -/
theorem i2c_timeout_warns_and_passes (env : Env) (now : String) (st : St)
    (hr : isRpi env = true) (ht : env.i2c = .timedOut) :
    run_hardware_tests env now st =
      .ok (true, st,
        [OutMsg.header "TESTS MATÉRIEL (Raspberry Pi)",
         OutMsg.success "Raspberry Pi détecté",
         OutMsg.warning "i2cdetect timeout - vérifiez I2C"]) := by
  simp [run_hardware_tests, hr, ht]

/-- Claim C10: off the Raspberry Pi the hardware check warns, skips,
returns success with the state untouched, and its result does not depend
on the `i2cdetect` outcome at all (the scan is never invoked). -/
theorem non_rpi_hardware_check_passes (env : Env) (now : String) (st : St)
    (hr : isRpi env = false) :
    (run_hardware_tests env now st =
       .ok (true, st,
         [OutMsg.header "TESTS MATÉRIEL (Raspberry Pi)",
          OutMsg.warning "Pas sur Raspberry Pi - tests matériels skipés",
          OutMsg.info "   Exécutez ce script sur le Raspberry Pi pour les tests matériels"])) ∧
    (∀ o : I2cOutcome,
       run_hardware_tests { env with i2c := o } now st = run_hardware_tests env now st) := by
  constructor
  · simp [run_hardware_tests, hr]
  · intro o
    have h2 : isRpi { env with i2c := o } = false := hr
    simp [run_hardware_tests, hr, h2]

/-! ### Claim C2: two reachable uncaught exceptions -/

/-- Claim C2 (refuted — the code, not the claim, is at fault): two
concrete runs in which a failure inside a check function is *not* caught
at the point of occurrence: a one-token public key file makes
`check_ssh_key` raise `IndexError`, and a missing `.test_markers`
directory makes the marker write of `check_bmp280_script` raise
`FileNotFoundError`; in the second world the whole entry point aborts
with that exception. -/
theorem uncaught_exceptions_escape_checks :
    check_ssh_key envShortKey "2026-01-01T00:00:00" stStart = .error PyExn.indexError ∧
    check_bmp280_script envNoKeyValidBmp "2026-01-01T00:00:00" stStart = .error PyExn.fileNotFound ∧
    mainRun envNoKeyValidBmp "2026-01-01T00:00:00" stStart = .error PyExn.fileNotFound := by
  refine ⟨?_, ?_, ?_⟩ <;> rfl

/-! ### Claim C7: the `.gitignore` rewrite -/

/-- Once the comment has been inserted, the rest of the loop just drops
every further matching line. -/
theorem gitignoreProcess_true (ls : List String) :
    gitignoreProcess ls true = (ls.filter (fun l => !gitignoreMatch l), true) := by
  induction ls with
  | nil => rfl
  | cons l ls ih =>
      by_cases hl : gitignoreMatch l
      · simp [gitignoreProcess, hl, ih, List.filter_cons]
      · simp [gitignoreProcess, hl, ih, List.filter_cons]

/-- The loop of `update_gitignore` computes exactly the
specification-side rewrite, and its `modified` flag is exactly "some
line matched". -/
theorem gitignoreProcess_false (ls : List String) :
    gitignoreProcess ls false = (gitignoreSpecLines ls, ls.any gitignoreMatch) := by
  induction ls with
  | nil => simp [gitignoreProcess, gitignoreSpecLines]
  | cons l ls ih =>
      by_cases hl : gitignoreMatch l
      · simp [gitignoreProcess, hl, gitignoreProcess_true, gitignoreSpecLines,
          List.takeWhile_cons, List.dropWhile_cons, List.filter_cons]
      · by_cases hany : ls.any gitignoreMatch <;>
          simp [gitignoreProcess, hl, ih, gitignoreSpecLines, hany,
            List.takeWhile_cons, List.dropWhile_cons]

/-- Claim C7: on an existing `.gitignore` (with the marker directory
present), `update_gitignore` removes every non-comment line mentioning
`.test_markers`, replaces the whole group by a single explanatory
comment at the position of the first such line, preserves every other
line verbatim and in order (this is the equality with
`gitignoreSpecLines`), leaves the marker directory untouched, and
rewrites the file only when some line matched. -/
theorem gitignore_rewrite_spec (st : St) (d : Dir) (g : String)
    (hm : st.markers = some d) (hg : st.gitignore = some g) :
    (gitignoreProcess (pySplitlines g) false).1 = gitignoreSpecLines (pySplitlines g) ∧
    (update_gitignore st).1.markers = st.markers ∧
    (update_gitignore st).1.gitignore =
      (if (pySplitlines g).any gitignoreMatch then
         some (joinWith "\n" (gitignoreSpecLines (pySplitlines g)) ++ "\n")
       else some g) := by
  refine ⟨by simp [gitignoreProcess_false], update_gitignore_markers st, ?_⟩
  unfold update_gitignore
  simp only [hm, hg]
  by_cases hany : (pySplitlines g).any gitignoreMatch <;>
    simp [gitignoreProcess_false, hany, hg]

/-! ### Sorting of the summary entries -/

/-- Inserting keeps the entries, up to permutation. -/
theorem insertByName_perm (p : String × String) (l : List (String × String)) :
    (insertByName p l).Perm (p :: l) := by
  induction l with
  | nil => exact List.Perm.refl _
  | cons q qs ih =>
      by_cases hq : q.1 < p.1
      · simp only [insertByName, if_pos hq]
        exact (ih.cons q).trans (List.Perm.swap p q qs)
      · simp only [insertByName, if_neg hq]
        exact List.Perm.refl _

/-- The name sort is a permutation of its input. -/
theorem sortByName_perm (l : List (String × String)) : (sortByName l).Perm l := by
  induction l with
  | nil => exact List.Perm.refl _
  | cons p ps ih => exact (insertByName_perm p (sortByName ps)).trans (ih.cons p)

/-- The entries of the summary are a permutation of the directory files
matched by the two marker globs. -/
theorem summaryMarkers_perm (d : Dir) :
    (summaryMarkers d).Perm (d.filter (fun p => markerGlobMatch p.1)) :=
  sortByName_perm _

/-- With distinct file names in the directory, the summary entries carry
distinct names: each matched marker file yields exactly one entry. -/
theorem summaryMarkers_names_nodup (d : Dir) (hd : (d.map Prod.fst).Nodup) :
    ((summaryMarkers d).map Prod.fst).Nodup := by
  have hperm := (summaryMarkers_perm d).map Prod.fst
  have hsub : ((d.filter (fun p => markerGlobMatch p.1)).map Prod.fst).Sublist (d.map Prod.fst) :=
    (List.filter_sublist d).map Prod.fst
  exact hperm.nodup_iff.mpr (List.Nodup.sublist hsub hd)

/-! ### The marker files written by a fully successful run -/

/-- A fully successful run (`mainRun` returning exit value 0) ends with
a marker directory holding exactly the old file names plus
`mainMarkerNames`, and with the SSH, BMP280 and final markers freshly
stamped with this run's timestamp. -/
theorem mainRun_ok0_markers (env : Env) (now : String) (st st' : St) (o : List OutMsg)
    (h : mainRun env now st = .ok (0, st', o)) :
    (∀ m, m ∈ stNames st' ↔ m ∈ stNames st ∨ m ∈ mainMarkerNames env) ∧
    stLookup st' "ssh_key_verified.txt" = some (sshMarkerText now) ∧
    stLookup st' "bmp280_script_verified.txt" = some (bmpMarkerText now) ∧
    stLookup st' "all_tests_passed.txt" = some (allPassedText now) := by
  unfold mainRun at h
  rcases h1 : check_ssh_key env now st with e | ⟨r1, st1, o1⟩ <;>
    simp only [h1, reduceCtorEq] at h
  rcases h2 : check_bmp280_script env now st1 with e | ⟨r2, st2, o2⟩ <;>
    simp only [h2, reduceCtorEq] at h
  rcases h3 : check_neoslider_script env now st2 with e | ⟨r3, st3, o3⟩ <;>
    simp only [h3, reduceCtorEq] at h
  rcases h4 : run_hardware_tests env now st3 with e | ⟨r4, st4, o4⟩ <;>
    simp only [h4, reduceCtorEq] at h
  rcases h5 : create_test_summary now st4 with e | ⟨st5, o5⟩ <;>
    simp only [h5, reduceCtorEq] at h
  cases hall : (r1 && r2 && r3 && r4)
  · rw [hall] at h
    exact absurd h (by simp)
  rw [hall, if_pos rfl] at h
  simp only [Bool.and_eq_true] at hall
  obtain ⟨⟨⟨hr1, hr2⟩, hr3⟩, hr4⟩ := hall
  subst hr1; subst hr2; subst hr3; subst hr4
  rcases check_ssh_key_effect env now st true st1 o1 h1 with ⟨hf, _⟩ | ⟨_, hs1⟩
  · exact absurd hf (by simp)
  rcases check_bmp280_script_effect env now st1 true st2 o2 h2 with ⟨hf, _⟩ | ⟨_, d2, hd2, hs2⟩
  · exact absurd hf (by simp)
  rw [hs1] at hd2
  simp only [Option.some.injEq] at hd2
  subst hd2
  rcases check_neoslider_script_effect env now st2 true st3 o3 h3 with
    ⟨hs3, hcase3⟩ | ⟨_, hneo, d3, hd3, hs3⟩
  · -- no NeoSlider script: state unchanged
    have hneo : env.test_neoslider = none := by
      rcases hcase3 with hfalse | hnone
      · exact absurd hfalse (by simp)
      · exact hnone
    have hd4 : st3.markers =
        some (dirWrite (dirWrite (st.markers.getD []) "ssh_key_verified.txt" (sshMarkerText now))
          "bmp280_script_verified.txt" (bmpMarkerText now)) := by
      rw [hs3, hs2]
    rcases run_hardware_tests_effect env now st3 true st4 o4 _ h4 hd4 with
      ⟨hs4, hhw⟩ | ⟨_, hhw, out, hs4⟩
    · obtain ⟨d5, hd5, hs5⟩ := create_test_summary_effect now st4 st5 o5 h5
      rw [hs4, hd4] at hd5
      simp only [Option.some.injEq] at hd5
      subst hd5
      have hd6 : (update_gitignore st5).1.markers = st5.markers := update_gitignore_markers st5
      rw [hd6, hs5] at h
      simp only [Except.ok.injEq, Prod.mk.injEq] at h
      obtain ⟨-, hst', -⟩ := h
      rw [← hst']
      refine ⟨fun m => ?_, ?_, ?_, ?_⟩
      · simp [stNames, mem_dirNames_dirWrite, mainMarkerNames, hneo, hhw, -List.mem_map]
        tauto
      · simp [stLookup, dirLookup_dirWrite_self, dirLookup_dirWrite_ne]
      · simp [stLookup, dirLookup_dirWrite_self, dirLookup_dirWrite_ne]
      · simp [stLookup, dirLookup_dirWrite_self, dirLookup_dirWrite_ne]
    · obtain ⟨d5, hd5, hs5⟩ := create_test_summary_effect now st4 st5 o5 h5
      rw [hs4] at hd5
      simp only [Option.some.injEq] at hd5
      subst hd5
      have hd6 : (update_gitignore st5).1.markers = st5.markers := update_gitignore_markers st5
      rw [hd6, hs5] at h
      simp only [Except.ok.injEq, Prod.mk.injEq] at h
      obtain ⟨-, hst', -⟩ := h
      rw [← hst']
      refine ⟨fun m => ?_, ?_, ?_, ?_⟩
      · simp [stNames, mem_dirNames_dirWrite, mainMarkerNames, hneo, hhw, -List.mem_map]
        tauto
      · simp [stLookup, dirLookup_dirWrite_self, dirLookup_dirWrite_ne]
      · simp [stLookup, dirLookup_dirWrite_self, dirLookup_dirWrite_ne]
      · simp [stLookup, dirLookup_dirWrite_self, dirLookup_dirWrite_ne]
  · -- NeoSlider marker written
    rw [hs2] at hd3
    simp only [Option.some.injEq] at hd3
    subst hd3
    have hd4 : st3.markers =
        some (dirWrite (dirWrite (dirWrite (st.markers.getD []) "ssh_key_verified.txt"
          (sshMarkerText now)) "bmp280_script_verified.txt" (bmpMarkerText now))
          "neoslider_script_verified.txt" (neoMarkerText now)) := by
      rw [hs3]
    rcases run_hardware_tests_effect env now st3 true st4 o4 _ h4 hd4 with
      ⟨hs4, hhw⟩ | ⟨_, hhw, out, hs4⟩
    · obtain ⟨d5, hd5, hs5⟩ := create_test_summary_effect now st4 st5 o5 h5
      rw [hs4, hd4] at hd5
      simp only [Option.some.injEq] at hd5
      subst hd5
      have hd6 : (update_gitignore st5).1.markers = st5.markers := update_gitignore_markers st5
      rw [hd6, hs5] at h
      simp only [Except.ok.injEq, Prod.mk.injEq] at h
      obtain ⟨-, hst', -⟩ := h
      rw [← hst']
      refine ⟨fun m => ?_, ?_, ?_, ?_⟩
      · simp [stNames, mem_dirNames_dirWrite, mainMarkerNames, hneo, hhw, -List.mem_map]
        tauto
      · simp [stLookup, dirLookup_dirWrite_self, dirLookup_dirWrite_ne]
      · simp [stLookup, dirLookup_dirWrite_self, dirLookup_dirWrite_ne]
      · simp [stLookup, dirLookup_dirWrite_self, dirLookup_dirWrite_ne]
    · obtain ⟨d5, hd5, hs5⟩ := create_test_summary_effect now st4 st5 o5 h5
      rw [hs4] at hd5
      simp only [Option.some.injEq] at hd5
      subst hd5
      have hd6 : (update_gitignore st5).1.markers = st5.markers := update_gitignore_markers st5
      rw [hd6, hs5] at h
      simp only [Except.ok.injEq, Prod.mk.injEq] at h
      obtain ⟨-, hst', -⟩ := h
      rw [← hst']
      refine ⟨fun m => ?_, ?_, ?_, ?_⟩
      · simp [stNames, mem_dirNames_dirWrite, mainMarkerNames, hneo, hhw, -List.mem_map]
        tauto
      · simp [stLookup, dirLookup_dirWrite_self, dirLookup_dirWrite_ne]
      · simp [stLookup, dirLookup_dirWrite_self, dirLookup_dirWrite_ne]
      · simp [stLookup, dirLookup_dirWrite_self, dirLookup_dirWrite_ne]

/-- Claim C3: the summary written by `create_test_summary` is built from
`summaryMarkers`, whose entries are a permutation of exactly the files
matched by the marker globs, with pairwise distinct names — one entry
per marker file; and every fully successful run creates the
`all_tests_passed.txt` marker. -/
theorem summary_one_entry_per_marker_and_final_marker :
    (∀ now st d, st.markers = some d → (d.map Prod.fst).Nodup →
       create_test_summary now st =
         .ok ({ st with markers := some (dirWrite d "test_summary.txt" (summaryText now d)) },
           [OutMsg.success "Résumé des tests créé: test_summary.txt"]) ∧
       (summaryMarkers d).Perm (d.filter (fun p => markerGlobMatch p.1)) ∧
       ((summaryMarkers d).map Prod.fst).Nodup) ∧
    (∀ env now st st' o, mainRun env now st = .ok (0, st', o) →
       stLookup st' "all_tests_passed.txt" = some (allPassedText now)) := by
  constructor
  · intro now st d hm hnodup
    exact ⟨create_test_summary_of_some now st d hm, summaryMarkers_perm d,
      summaryMarkers_names_nodup d hnodup⟩
  · intro env now st st' o h
    exact (mainRun_ok0_markers env now st st' o h).2.2.2

/-- Claim C8: re-running after a fully successful run is idempotent on
the marker directory: the set of marker file names does not change, and
the markers are overwritten in place with the second run's timestamp. -/
theorem rerun_idempotent_markers (env : Env) (t1 t2 : String) (st st1 st2 : St)
    (o1 o2 : List OutMsg)
    (h1 : mainRun env t1 st = .ok (0, st1, o1))
    (h2 : mainRun env t2 st1 = .ok (0, st2, o2)) :
    (stNames st2).toFinset = (stNames st1).toFinset ∧
    stLookup st2 "ssh_key_verified.txt" = some (sshMarkerText t2) ∧
    stLookup st2 "bmp280_script_verified.txt" = some (bmpMarkerText t2) ∧
    stLookup st2 "all_tests_passed.txt" = some (allPassedText t2) := by
  obtain ⟨N1, -, -, -⟩ := mainRun_ok0_markers env t1 st st1 o1 h1
  obtain ⟨N2, L2a, L2b, L2c⟩ := mainRun_ok0_markers env t2 st1 st2 o2 h2
  refine ⟨?_, L2a, L2b, L2c⟩
  ext m
  simp only [List.mem_toFinset]
  rw [N2 m, N1 m]
  tauto

/-! ### Concrete instantiations of the theorems with hypotheses -/

/-- Witness for C4 at a concrete world with no public key. -/
theorem ssh_no_keys_fails_without_marker_witness :
    envNoKeyValidBmp.id_ed25519_pub = none ∧
    envNoKeyValidBmp.id_rsa_pub = none ∧
    check_ssh_key envNoKeyValidBmp "T" stStart =
      .ok (false, stStart,
        [OutMsg.header "VÉRIFICATION SSH",
         OutMsg.error "Aucune clé SSH publique trouvée",
         OutMsg.info "\n📚 Pour générer une clé SSH:",
         OutMsg.info "   ssh-keygen -t ed25519 -C \"mon-raspberry-pi\"",
         OutMsg.info "   (Appuyez 3x sur Entrée pour les valeurs par défaut)"]) :=
  ⟨rfl, rfl, ssh_no_keys_fails_without_marker envNoKeyValidBmp "T" stStart rfl rfl⟩

/-- Witness for C5 at a concrete world whose scripts fail to compile. -/
theorem syntax_error_fails_with_lineno_witness :
    envSyntaxErr.test_bmp280 = some "def f(:" ∧
    envSyntaxErr.pyCompile "def f(:" = some { lineno := 1, msg := "invalid syntax" } ∧
    check_bmp280_script envSyntaxErr "T" stStart =
      .ok (false, stStart,
        [OutMsg.header "VÉRIFICATION TEST_BMP280.PY",
         OutMsg.success "Fichier test_bmp280.py trouvé",
         OutMsg.error "Erreur de syntaxe ligne 1: invalid syntax"]) ∧
    envSyntaxErr.test_neoslider = some "def g(:" ∧
    envSyntaxErr.pyCompile "def g(:" = some { lineno := 1, msg := "invalid syntax" } ∧
    check_neoslider_script envSyntaxErr "T" stStart =
      .ok (false, stStart,
        [OutMsg.header "VÉRIFICATION TEST_NEOSLIDER.PY",
         OutMsg.success "Fichier test_neoslider.py trouvé",
         OutMsg.error "Erreur de syntaxe ligne 1: invalid syntax"]) :=
  ⟨rfl, rfl,
   (syntax_error_fails_with_lineno envSyntaxErr "T" stStart).1 "def f(:"
     { lineno := 1, msg := "invalid syntax" } rfl rfl,
   rfl, rfl,
   (syntax_error_fails_with_lineno envSyntaxErr "T" stStart).2 "def g(:"
     { lineno := 1, msg := "invalid syntax" } rfl rfl⟩

/-- Witness for C6 at a concrete world whose scripts miss an import. -/
theorem missing_import_fails_witness :
    envNoImport.test_bmp280 = some "import adafruit_bmp280" ∧
    envNoImport.pyCompile "import adafruit_bmp280" = none ∧
    (strContains "import adafruit_bmp280" "board" = false ∨
      strContains "import adafruit_bmp280" "adafruit_bmp280" = false) ∧
    checkOutcome (check_bmp280_script envNoImport "T" stStart) = .ok (false, stStart) ∧
    envNoImport.test_neoslider = some "import board" ∧
    envNoImport.pyCompile "import board" = none ∧
    (strContains "import board" "board" = false ∨
      strContains "import board" "adafruit_seesaw" = false) ∧
    checkOutcome (check_neoslider_script envNoImport "T" stStart) = .ok (false, stStart) :=
  ⟨rfl, rfl, Or.inl (by decide),
   (missing_import_fails envNoImport "T" stStart).1 "import adafruit_bmp280" rfl rfl
     (Or.inl (by decide)),
   rfl, rfl, Or.inr (by decide),
   (missing_import_fails envNoImport "T" stStart).2 "import board" rfl rfl
     (Or.inr (by decide))⟩

/-- Witness for C7 at a concrete `.gitignore` excluding the marker
directory on its first line. -/
theorem gitignore_rewrite_spec_witness :
    stGit.markers = some [] ∧
    stGit.gitignore = some ".test_markers/\nuv.lock" ∧
    ((gitignoreProcess (pySplitlines ".test_markers/\nuv.lock") false).1 =
       gitignoreSpecLines (pySplitlines ".test_markers/\nuv.lock") ∧
     (update_gitignore stGit).1.markers = stGit.markers ∧
     (update_gitignore stGit).1.gitignore =
       (if (pySplitlines ".test_markers/\nuv.lock").any gitignoreMatch then
          some (joinWith "\n" (gitignoreSpecLines (pySplitlines ".test_markers/\nuv.lock")) ++ "\n")
        else some ".test_markers/\nuv.lock")) :=
  ⟨rfl, rfl, gitignore_rewrite_spec stGit [] ".test_markers/\nuv.lock" rfl rfl⟩

/-- Witness for C3 at a concrete directory and a concrete fully
successful run. -/
theorem summary_one_entry_per_marker_witness :
    stSum.markers = some dSum ∧
    (dSum.map Prod.fst).Nodup ∧
    (create_test_summary "T" stSum =
       .ok ({ stSum with markers := some (dirWrite dSum "test_summary.txt" (summaryText "T" dSum)) },
         [OutMsg.success "Résumé des tests créé: test_summary.txt"]) ∧
     (summaryMarkers dSum).Perm (dSum.filter (fun p => markerGlobMatch p.1)) ∧
     ((summaryMarkers dSum).map Prod.fst).Nodup) ∧
    mainRun envRerun "T1" stStart = .ok (0, stFirst, outFirst) ∧
    stLookup stFirst "all_tests_passed.txt" = some (allPassedText "T1") :=
  ⟨rfl, by decide,
   summary_one_entry_per_marker_and_final_marker.1 "T" stSum dSum rfl (by decide),
   by rfl,
   summary_one_entry_per_marker_and_final_marker.2 envRerun "T1" stStart stFirst outFirst (by rfl)⟩

/-- Witness for C8: two consecutive fully successful runs in a concrete
world. -/
theorem rerun_idempotent_markers_witness :
    mainRun envRerun "T1" stStart = .ok (0, stFirst, outFirst) ∧
    mainRun envRerun "T2" stFirst = .ok (0, stSecond, outSecond) ∧
    ((stNames stSecond).toFinset = (stNames stFirst).toFinset ∧
     stLookup stSecond "ssh_key_verified.txt" = some (sshMarkerText "T2") ∧
     stLookup stSecond "bmp280_script_verified.txt" = some (bmpMarkerText "T2") ∧
     stLookup stSecond "all_tests_passed.txt" = some (allPassedText "T2")) :=
  ⟨by rfl, by rfl,
   rerun_idempotent_markers envRerun "T1" "T2" stStart stFirst stSecond outFirst outSecond
     (by rfl) (by rfl)⟩

/-- Witness for C9 at a concrete Raspberry Pi whose scan times out. -/
theorem i2c_timeout_warns_and_passes_witness :
    isRpi envI2cTimeout = true ∧
    envI2cTimeout.i2c = I2cOutcome.timedOut ∧
    run_hardware_tests envI2cTimeout "T" stStart =
      .ok (true, stStart,
        [OutMsg.header "TESTS MATÉRIEL (Raspberry Pi)",
         OutMsg.success "Raspberry Pi détecté",
         OutMsg.warning "i2cdetect timeout - vérifiez I2C"]) :=
  ⟨rfl, rfl, i2c_timeout_warns_and_passes envI2cTimeout "T" stStart rfl rfl⟩

/-- Witness for C10 at a concrete non-Pi machine. -/
theorem non_rpi_hardware_check_passes_witness :
    isRpi envNonRpi = false ∧
    run_hardware_tests envNonRpi "T" stStart =
      .ok (true, stStart,
        [OutMsg.header "TESTS MATÉRIEL (Raspberry Pi)",
         OutMsg.warning "Pas sur Raspberry Pi - tests matériels skipés",
         OutMsg.info "   Exécutez ce script sur le Raspberry Pi pour les tests matériels"]) ∧
    run_hardware_tests { envNonRpi with i2c := I2cOutcome.timedOut } "T" stStart =
      run_hardware_tests envNonRpi "T" stStart :=
  ⟨rfl, (non_rpi_hardware_check_passes envNonRpi "T" stStart rfl).1,
   (non_rpi_hardware_check_passes envNonRpi "T" stStart rfl).2 I2cOutcome.timedOut⟩
